import Mathlib

/-!
Verification of the query-refinement and candidate-ranking pipeline in
`src/data_collection` (query_refiner.py, relevance_scorer.py,
wikipedia_api.py, wiki_search_pipeline.py).

The remote collaborators (the Gemini oracle and the Wikipedia HTTP
endpoints) are modelled as response traces: a function from the attempt
index (how many calls this call site has already made) to the outcome of
that attempt.  Each Python function becomes a Lean function from its
response trace to a pair (result, number of calls made), with the retry
loops written as fuel recursion where the fuel is the number of loop
iterations remaining (`max_retries + 1` at the start).  Scores are
modelled as rationals; blocking sleeps and logging are side effects with
no bearing on results or call counts and are dropped.
-/

/-- Outcome of one attempt against the Gemini oracle
(`model.generate_content`): either the response text, or an exception
whose string representation is `msg`. -/
inductive OracleResp where
  | ok (text : String)
  | err (msg : String)
deriving DecidableEq, Repr

/-- Outcome of one HTTP attempt against a Wikipedia endpoint:
a 200 response with parsed body `α`, a 429 status, any other non-200
status, or a `requests.exceptions.RequestException`. -/
inductive HttpResp (α : Type) where
  | ok (body : α)
  | status429
  | badStatus
  | netErr
deriving DecidableEq, Repr

/-- One page object from the Wikipedia content response
(`data.values()` element): its `extract` field (defaulting to `""`)
and the list of its category titles. -/
structure Page where
  extract : String
  categories : List String
deriving DecidableEq, Repr

/-- Test whether `pat` occurs as a contiguous substring of `s`
(the Python containment test `pat in s`). -/
def strHasSubstr (s pat : String) : Bool :=
  (List.range (s.length + 1)).any (fun i => pat.toList.isPrefixOf (s.toList.drop i))

/-- The Python `str.strip()`: drop whitespace from both ends.  Stated on
the character list so that it evaluates by kernel reduction; agrees with
the strip of the source on every string the claims touch. -/
def strTrim (s : String) : String :=
  String.mk (((s.toList.dropWhile Char.isWhitespace).reverse.dropWhile
    Char.isWhitespace).reverse)

/-- The Python `str.lower()` (ASCII range), character by character. -/
def strToLower (s : String) : String :=
  String.mk (s.toList.map Char.toLower)

/-! ## query_refiner.refine_query_with_gemini -/

/-- The retry loop of `refine_query_with_gemini` (query_refiner.py lines
31-47).  `attempt` is the Python `attempt` counter, `fuel` the number of
iterations the `while attempt <= max_retries` loop may still run
(`max_retries + 1 - attempt`).  Returns the result together with the
number of oracle calls made. -/
def refineGo (oracle : Nat → OracleResp) (query : String) (attempt : Nat) :
    Nat → String × Nat
  | 0 => (query, attempt)
  | fuel + 1 =>
    match oracle attempt with
    | .ok text => (strTrim text, attempt + 1)
    | .err msg =>
      if strHasSubstr msg "429" then refineGo oracle query (attempt + 1) fuel
      else (query, attempt + 1)

/-- `refine_query_with_gemini(query, max_retries=3)`: refine the query via
the oracle, retrying only on errors whose message contains "429";
fall back to the original query. -/
def refine_query_with_gemini (oracle : Nat → OracleResp) (query : String)
    (max_retries : Nat := 3) : String × Nat :=
  refineGo oracle query 0 (max_retries + 1)

/-! ## wikipedia_api.search_wikipedia -/

/-- The retry loop of `search_wikipedia` (wikipedia_api.py lines 21-42):
`for attempt in range(max_retries + 1)`.  A 200 returns the titles; a 429
sleeps and continues; any other status returns `[]` at once; a request
exception continues while `attempt < max_retries` and otherwise returns
`[]`.  Falling off the loop returns `[]`. -/
def searchGo (resp : Nat → HttpResp (List String)) (max_retries attempt : Nat) :
    Nat → List String × Nat
  | 0 => ([], attempt)
  | fuel + 1 =>
    match resp attempt with
    | .ok titles => (titles, attempt + 1)
    | .status429 => searchGo resp max_retries (attempt + 1) fuel
    | .badStatus => ([], attempt + 1)
    | .netErr =>
      if attempt < max_retries then searchGo resp max_retries (attempt + 1) fuel
      else ([], attempt + 1)

/-- `search_wikipedia(query, max_retries=2)`, as a function of the
response trace of its endpoint.  Returns the list of up to 5 titles from
the 200 body, together with the number of HTTP calls made. -/
def search_wikipedia (resp : Nat → HttpResp (List String))
    (max_retries : Nat := 2) : List String × Nat :=
  searchGo resp max_retries 0 (max_retries + 1)

/-! ## wikipedia_api.get_wikipedia_content -/

/-- The per-page processing of a 200 content response (wikipedia_api.py
lines 66-73): the loop over `data.values()` returns on its first
iteration, so only the first page is ever inspected.  Categories are
lowercased and the page is rejected when any contains "disambiguation";
otherwise the queried title is returned with the extract of the page (even
when the extract is empty).  An empty page collection yields
`(None, None)`. -/
def processPages (title : String) : List Page → Option (String × String)
  | [] => none
  | p :: _ =>
    let categories := p.categories.map strToLower
    if categories.any (fun cat => strHasSubstr cat "disambiguation") then none
    else some (title, p.extract)

/-- The retry loop of `get_wikipedia_content` (wikipedia_api.py lines
61-87), with the same retry structure as `searchGo`.  `none` plays the
role of the `(None, None)` return. -/
def contentGo (resp : Nat → HttpResp (List Page)) (title : String)
    (max_retries attempt : Nat) : Nat → Option (String × String) × Nat
  | 0 => (none, attempt)
  | fuel + 1 =>
    match resp attempt with
    | .ok pages => (processPages title pages, attempt + 1)
    | .status429 => contentGo resp title max_retries (attempt + 1) fuel
    | .badStatus => (none, attempt + 1)
    | .netErr =>
      if attempt < max_retries then contentGo resp title max_retries (attempt + 1) fuel
      else (none, attempt + 1)

/-- `get_wikipedia_content(title, max_retries=2)`, as a function of the
response trace of the content endpoint. -/
def get_wikipedia_content (resp : Nat → HttpResp (List Page)) (title : String)
    (max_retries : Nat := 2) : Option (String × String) × Nat :=
  contentGo resp title max_retries 0 (max_retries + 1)

/-! ## relevance_scorer.is_relevant_page_gemini -/

/-- The character filter of relevance_scorer.py line 35: keep exactly
the characters that are digits or a dot, drop everything else. -/
def stripNonNumeric (s : String) : String :=
  String.mk (s.toList.filter (fun c => c.isDigit || c == '.'))

/-- Value of a (possibly empty) digit string read in base 10. -/
def digitsVal (cs : List Char) : Nat :=
  cs.foldl (fun a c => a * 10 + (c.toNat - 48)) 0

/-- The Python builtin `float(s)` restricted to strings of digits and
dots, the only shape `is_relevant_page_gemini` can pass it: it succeeds
exactly when `s` holds at least one digit and at most one dot, and then
denotes `intpart.fracpart` as an exact rational.  Any other such string
raises `ValueError`. -/
def parseScore? (s : String) : Option Rat :=
  let cs := s.toList
  if cs.any Char.isDigit ∧ cs.countP (fun c => c == '.') ≤ 1 then
    let ip := cs.takeWhile (fun c => c ≠ '.')
    let fp := (cs.dropWhile (fun c => c ≠ '.')).drop 1
    some ((digitsVal ip : Rat) + (digitsVal fp : Rat) / (10 : Rat) ^ fp.length)
  else none

/-- The retry loop of `is_relevant_page_gemini` (relevance_scorer.py
lines 30-48).  On a successful oracle call the text is stripped,
filtered to digits and dots, parsed and clamped; a `float` failure
raises a `ValueError` whose message embeds the offending string (CPython
additionally wraps it in quote marks, which contain no digits and so
cannot affect the "429" test), and — like an oracle error — it is
retried exactly when that message contains "429", otherwise the loop
breaks.  On break or exhaustion the score is 0.0. -/
def scoreGo (oracle : Nat → OracleResp) (attempt : Nat) : Nat → Rat × Nat
  | 0 => (0, attempt)
  | fuel + 1 =>
    match oracle attempt with
    | .ok text =>
      let score_text := stripNonNumeric (strTrim text)
      match parseScore? score_text with
      | some v => (max 0 (min v 1), attempt + 1)
      | none =>
        let msg := "could not convert string to float: " ++ score_text
        if strHasSubstr msg "429" then scoreGo oracle (attempt + 1) fuel
        else (0, attempt + 1)
    | .err msg =>
      if strHasSubstr msg "429" then scoreGo oracle (attempt + 1) fuel
      else (0, attempt + 1)

/-- The `summary_preview` computed on relevance_scorer.py line 13. -/
def summaryPreview (wiki_summary : String) : String :=
  String.mk (wiki_summary.toList.take 500) ++
    (if wiki_summary.length > 500 then "..." else "")

/-- `is_relevant_page_gemini(query, wiki_title, wiki_summary,
max_retries=3)`, as a function of the response trace of the oracle.  The
query, title and summary enter only the prompt (via `summaryPreview`)
and do not affect control flow. -/
def is_relevant_page_gemini (oracle : Nat → OracleResp)
    (query wiki_title wiki_summary : String) (max_retries : Nat := 3) :
    Rat × Nat :=
  scoreGo oracle 0 (max_retries + 1)

/-! ## wiki_search_pipeline.fetch_best_wikipedia_page -/

/-- The collaborators of one pipeline run: a response trace for the
refinement oracle, per-term traces for the search endpoint, per-title
traces for the content endpoint, and per-(title, summary) traces for the
scoring oracle. -/
structure Env where
  refineResp : Nat → OracleResp
  searchResp : String → Nat → HttpResp (List String)
  contentResp : String → Nat → HttpResp (List Page)
  scoreResp : String → String → Nat → OracleResp

/-- The outcome dictionary of `fetch_best_wikipedia_page`: either
`{"title": ..., "content": ..., "score": ...}` or `{"error": ...}`. -/
inductive Result where
  | found (title content : String) (score : Rat)
  | notFound (reason : String)
deriving DecidableEq, Repr

/-- The refined query of a run (wiki_search_pipeline.py line 16). -/
def refinedOf (env : Env) (query : String) : String :=
  (refine_query_with_gemini env.refineResp query).1

/-- The title list after the search stage with its fallback
(wiki_search_pipeline.py lines 19-22): search the refined query and, if
that is empty, search the original query. -/
def titlesOf (env : Env) (query : String) : List String :=
  let titles := (search_wikipedia (env.searchResp (refinedOf env query))).1
  if titles = [] then (search_wikipedia (env.searchResp query)).1 else titles

/-- One iteration of the candidate loop (wiki_search_pipeline.py lines
29-34): fetch the content for the title and, when both returned strings are
truthy (non-`None` and non-empty), score it and build the candidate
triple. -/
def candOf (env : Env) (query title : String) : Option (String × String × Rat) :=
  match (get_wikipedia_content (env.contentResp title) title).1 with
  | some (wiki_title, wiki_summary) =>
    if wiki_title ≠ "" ∧ wiki_summary ≠ "" then
      some (wiki_title, wiki_summary,
        (is_relevant_page_gemini (env.scoreResp wiki_title wiki_summary)
          query wiki_title wiki_summary).1)
    else none
  | none => none

/-- The candidate list accumulated over the titles, in title order. -/
def candidatesOf (env : Env) (query : String) : List (String × String × Rat) :=
  (titlesOf env query).filterMap (candOf env query)

/-- The comparison used by the candidate sort: `a` may precede `b`
exactly when the score of `a` is at least the score of `b`. -/
def scoreDesc (a b : String × String × Rat) : Bool :=
  decide (b.2.2 ≤ a.2.2)

/-- `candidates.sort(key=lambda x: x[2], reverse=True)`
(wiki_search_pipeline.py line 36): a stable descending sort on the
score. -/
def sortedCandidatesOf (env : Env) (query : String) : List (String × String × Rat) :=
  (candidatesOf env query).mergeSort scoreDesc

/-- `fetch_best_wikipedia_page(query)` (wiki_search_pipeline.py lines
6-48): refine, search with fallback, fetch and score each title, sort,
and select.  The two `Found` branches (top score above the 0.7 threshold
or not) build the same dictionary and differ only in logging. -/
def fetch_best_wikipedia_page (env : Env) (query : String) : Result :=
  if titlesOf env query = [] then
    .notFound "No Wikipedia pages found for this query."
  else
    match sortedCandidatesOf env query with
    | [] => .notFound "No relevant Wikipedia content found."
    | c :: _ =>
      if c.2.2 ≥ 7 / 10 then .found c.1 c.2.1 c.2.2
      else .found c.1 c.2.1 c.2.2

/-! ## Helper lemmas about the retry loops -/

theorem refineGo_all429 (oracle : Nat → OracleResp) (q : String)
    (h : ∀ n, ∃ msg, oracle n = .err msg ∧ strHasSubstr msg "429" = true) :
    ∀ fuel attempt, refineGo oracle q attempt fuel = (q, attempt + fuel) := by
  intro fuel
  induction fuel with
  | zero => intro attempt; simp [refineGo]
  | succ n ih =>
    intro attempt
    obtain ⟨msg, hm, h429⟩ := h attempt
    simp only [refineGo, hm, h429, if_true, ih (attempt + 1)]
    simp
    omega

theorem refineGo_noSuccess (oracle : Nat → OracleResp) (q : String)
    (h : ∀ n text, oracle n ≠ .ok text) :
    ∀ fuel attempt, (refineGo oracle q attempt fuel).1 = q := by
  intro fuel
  induction fuel with
  | zero => intro attempt; simp [refineGo]
  | succ n ih =>
    intro attempt
    simp only [refineGo]
    cases hm : oracle attempt with
    | ok text => exact absurd hm (h attempt text)
    | err msg =>
      by_cases h429 : strHasSubstr msg "429"
      · simpa [h429] using ih (attempt + 1)
      · simp [h429]

theorem refineGo_shape (oracle : Nat → OracleResp) (q : String) :
    ∀ fuel attempt, (refineGo oracle q attempt fuel).1 = q ∨
      ∃ n text, attempt ≤ n ∧ n < attempt + fuel ∧ oracle n = .ok text ∧
        (refineGo oracle q attempt fuel).1 = strTrim text := by
  intro fuel
  induction fuel with
  | zero => intro attempt; left; simp [refineGo]
  | succ m ih =>
    intro attempt
    cases hm : oracle attempt with
    | ok text =>
      right
      exact ⟨attempt, text, le_refl _, by omega, hm, by simp [refineGo, hm]⟩
    | err msg =>
      by_cases h429 : strHasSubstr msg "429"
      · rcases ih (attempt + 1) with hq | ⟨n, text, hle, hlt, hok, hres⟩
        · left; simpa [refineGo, hm, h429] using hq
        · right
          exact ⟨n, text, by omega, by omega, hok,
            by simpa [refineGo, hm, h429] using hres⟩
      · left; simp [refineGo, hm, h429]

theorem searchGo_all429 (resp : Nat → HttpResp (List String)) (mr : Nat)
    (h : ∀ n, resp n = .status429) :
    ∀ fuel attempt, searchGo resp mr attempt fuel = ([], attempt + fuel) := by
  intro fuel
  induction fuel with
  | zero => intro attempt; simp [searchGo]
  | succ n ih =>
    intro attempt
    simp only [searchGo, h attempt, ih (attempt + 1)]
    simp
    omega

theorem searchGo_allNetErr (resp : Nat → HttpResp (List String)) (mr : Nat)
    (h : ∀ n, resp n = .netErr) :
    ∀ fuel attempt, attempt + fuel = mr + 1 →
      searchGo resp mr attempt fuel = ([], mr + 1) := by
  intro fuel
  induction fuel with
  | zero => intro attempt heq; simp [searchGo]; omega
  | succ n ih =>
    intro attempt heq
    simp only [searchGo, h attempt]
    by_cases hlt : attempt < mr
    · rw [if_pos hlt]
      exact ih (attempt + 1) (by omega)
    · rw [if_neg hlt]
      have : attempt = mr := by omega
      simp [this]

theorem contentGo_all429 (resp : Nat → HttpResp (List Page)) (title : String)
    (mr : Nat) (h : ∀ n, resp n = .status429) :
    ∀ fuel attempt, contentGo resp title mr attempt fuel = (none, attempt + fuel) := by
  intro fuel
  induction fuel with
  | zero => intro attempt; simp [contentGo]
  | succ n ih =>
    intro attempt
    simp only [contentGo, h attempt, ih (attempt + 1)]
    simp
    omega

theorem contentGo_disambig (resp : Nat → HttpResp (List Page)) (title : String)
    (mr : Nat)
    (h : ∀ n ps, resp n = .ok ps → ∃ p rest, ps = p :: rest ∧
      (p.categories.map strToLower).any
        (fun cat => strHasSubstr cat "disambiguation") = true) :
    ∀ fuel attempt, (contentGo resp title mr attempt fuel).1 = none := by
  intro fuel
  induction fuel with
  | zero => intro attempt; simp [contentGo]
  | succ n ih =>
    intro attempt
    simp only [contentGo]
    cases hm : resp attempt with
    | ok ps =>
      obtain ⟨p, rest, hps, hdis⟩ := h attempt ps hm
      simp [hps, processPages, hdis]
    | status429 => exact ih (attempt + 1)
    | badStatus => simp
    | netErr =>
      by_cases hlt : attempt < mr
      · simpa [hlt] using ih (attempt + 1)
      · simp [hlt]

theorem scoreGo_bounds (oracle : Nat → OracleResp) :
    ∀ fuel attempt, 0 ≤ (scoreGo oracle attempt fuel).1 ∧
      (scoreGo oracle attempt fuel).1 ≤ 1 := by
  intro fuel
  induction fuel with
  | zero => intro attempt; simp [scoreGo]
  | succ n ih =>
    intro attempt
    cases hm : oracle attempt with
    | ok text =>
      cases hp : parseScore? (stripNonNumeric (strTrim text)) with
      | some v =>
        simp only [scoreGo, hm, hp]
        exact ⟨le_max_left 0 _, max_le zero_le_one (min_le_right v 1)⟩
      | none =>
        simp only [scoreGo, hm, hp]
        split
        · exact ih (attempt + 1)
        · simp
    | err msg =>
      simp only [scoreGo, hm]
      split
      · exact ih (attempt + 1)
      · simp

theorem scoreGo_all429 (oracle : Nat → OracleResp)
    (h : ∀ n, ∃ msg, oracle n = .err msg ∧ strHasSubstr msg "429" = true) :
    ∀ fuel attempt, scoreGo oracle attempt fuel = (0, attempt + fuel) := by
  intro fuel
  induction fuel with
  | zero => intro attempt; simp [scoreGo]
  | succ n ih =>
    intro attempt
    obtain ⟨msg, hm, h429⟩ := h attempt
    simp only [scoreGo, hm, h429, if_true, ih (attempt + 1)]
    simp
    omega

/-! ## Helper lemmas about candidates and the sort -/

theorem contentGo_some_title (resp : Nat → HttpResp (List Page)) (title : String)
    (mr : Nat) :
    ∀ fuel attempt wt ws,
      (contentGo resp title mr attempt fuel).1 = some (wt, ws) → wt = title := by
  intro fuel
  induction fuel with
  | zero => intro attempt wt ws h; simp [contentGo] at h
  | succ n ih =>
    intro attempt wt ws h
    cases hm : resp attempt with
    | ok ps =>
      simp only [contentGo, hm] at h
      cases ps with
      | nil => simp [processPages] at h
      | cons p rest =>
        simp only [processPages] at h
        split at h
        · simp at h
        · simp only [Option.some.injEq, Prod.mk.injEq] at h
          exact h.1.symm
    | status429 =>
      simp only [contentGo, hm] at h
      exact ih (attempt + 1) wt ws h
    | badStatus => simp [contentGo, hm] at h
    | netErr =>
      simp only [contentGo, hm] at h
      split at h
      · exact ih (attempt + 1) wt ws h
      · simp at h

theorem candOf_some (env : Env) (q t : String) (c : String × String × Rat)
    (h : candOf env q t = some c) :
    c.1 = t ∧ c.1 ≠ "" ∧ c.2.1 ≠ "" := by
  unfold candOf at h
  cases hg : (get_wikipedia_content (env.contentResp t) t).1 with
  | none => rw [hg] at h; simp at h
  | some pr =>
    obtain ⟨wt, ws⟩ := pr
    rw [hg] at h
    simp only at h
    split at h
    · rename_i hcond
      simp only [Option.some.injEq] at h
      have hwt : wt = t := contentGo_some_title (env.contentResp t) t 2 3 0 wt ws hg
      subst h
      exact ⟨hwt, hcond.1, hcond.2⟩
    · simp at h

theorem mem_candidatesOf (env : Env) (q : String) (c : String × String × Rat)
    (h : c ∈ candidatesOf env q) :
    ∃ t, t ∈ titlesOf env q ∧ candOf env q t = some c := by
  simpa [candidatesOf] using List.mem_filterMap.mp h

theorem scoreDesc_trans : ∀ a b c : String × String × Rat,
    scoreDesc a b → scoreDesc b c → scoreDesc a c := by
  intro a b c hab hbc
  simp only [scoreDesc, decide_eq_true_eq] at *
  exact le_trans hbc hab

theorem scoreDesc_total : ∀ a b : String × String × Rat,
    scoreDesc a b || scoreDesc b a := by
  intro a b
  simp only [scoreDesc, Bool.or_eq_true, decide_eq_true_eq]
  exact le_total _ _

theorem sortedCandidatesOf_perm (env : Env) (q : String) :
    (sortedCandidatesOf env q).Perm (candidatesOf env q) :=
  List.mergeSort_perm _ _

theorem sortedCandidatesOf_nil_iff (env : Env) (q : String) :
    sortedCandidatesOf env q = [] ↔ candidatesOf env q = [] := by
  constructor
  · intro h
    have hp := sortedCandidatesOf_perm env q
    rw [h] at hp
    exact hp.symm.eq_nil
  · intro h
    simp [sortedCandidatesOf, h]

theorem sortedCandidatesOf_head_max (env : Env) (q : String)
    (c : String × String × Rat) (rest : List (String × String × Rat))
    (h : sortedCandidatesOf env q = c :: rest) :
    c ∈ candidatesOf env q ∧ ∀ d ∈ candidatesOf env q, d.2.2 ≤ c.2.2 := by
  have hperm := sortedCandidatesOf_perm env q
  have hsorted :=
    List.sorted_mergeSort scoreDesc_trans scoreDesc_total (candidatesOf env q)
  have hsorted' : (sortedCandidatesOf env q).Pairwise (scoreDesc · ·) := hsorted
  rw [h] at hperm hsorted'
  constructor
  · exact hperm.mem_iff.mp (List.mem_cons_self c rest)
  · intro d hd
    have hd' : d ∈ c :: rest := hperm.mem_iff.mpr hd
    rcases List.mem_cons.mp hd' with rfl | hdr
    · exact le_refl _
    · have := (List.pairwise_cons.mp hsorted').1 d hdr
      simpa [scoreDesc, decide_eq_true_eq] using this

/-! ## Dispatch lemmas for the selection stage -/

theorem fetch_eq_of_titles_nil (env : Env) (q : String)
    (ht : titlesOf env q = []) :
    fetch_best_wikipedia_page env q =
      Result.notFound "No Wikipedia pages found for this query." := by
  unfold fetch_best_wikipedia_page
  rw [if_pos ht]

theorem fetch_eq_of_sorted_nil (env : Env) (q : String)
    (ht : titlesOf env q ≠ []) (h : sortedCandidatesOf env q = []) :
    fetch_best_wikipedia_page env q =
      Result.notFound "No relevant Wikipedia content found." := by
  unfold fetch_best_wikipedia_page
  rw [if_neg ht, h]

theorem fetch_eq_of_sorted_cons (env : Env) (q : String)
    (c : String × String × Rat) (rest : List (String × String × Rat))
    (ht : titlesOf env q ≠ []) (h : sortedCandidatesOf env q = c :: rest) :
    fetch_best_wikipedia_page env q = Result.found c.1 c.2.1 c.2.2 := by
  unfold fetch_best_wikipedia_page
  rw [if_neg ht, h]
  exact ite_self _

/-! ## Concrete collaborator fixtures used by witnesses and
counterexamples -/

/-- An oracle hitting its quota on every attempt. -/
def always429Oracle : Nat → OracleResp :=
  fun _ => .err "429 Resource has been exhausted"

/-- An oracle failing on every attempt with a non-quota error. -/
def fatalOracle : Nat → OracleResp :=
  fun _ => .err "500 internal error"

/-- A search endpoint answering 429 on every attempt. -/
def always429Search : Nat → HttpResp (List String) := fun _ => .status429

/-- A content endpoint answering 429 on every attempt. -/
def always429Content : Nat → HttpResp (List Page) := fun _ => .status429

/-- A search endpoint whose first attempt raises a request exception and
whose second attempt succeeds. -/
def netErrThenOkSearch : Nat → HttpResp (List String) :=
  fun n => if n = 0 then .netErr else .ok ["Gravity"]

/-- A content endpoint returning a 200 whose only page has an empty
extract and no categories. -/
def emptyExtractContent : Nat → HttpResp (List Page) :=
  fun _ => .ok [{ extract := "", categories := [] }]

/-- A content endpoint returning a 200 with an empty page collection. -/
def emptyPagesContent : Nat → HttpResp (List Page) := fun _ => .ok []

/-- A disambiguation page. -/
def disambigPage : Page :=
  { extract := "Gravity may refer to:",
    categories := ["Category:Disambiguation pages"] }

/-- A scoring oracle that always answers the text ".429.", which strips
to an unparseable numeral containing the digits 429. -/
def dot429Oracle : Nat → OracleResp := fun _ => .ok ".429."

/-- A scoring oracle whose answer strips to an unparseable numeral with
no occurrence of 429. -/
def unparseableOracle : Nat → OracleResp := fun _ => .ok "unknown"

/-- A scoring oracle answering the parseable but out-of-range number
1.7. -/
def outOfRangeOracle : Nat → OracleResp := fun _ => .ok "1.7"

/-- A full set of healthy collaborators: refinement succeeds, search
finds one title, its content is a regular article, and the scorer
answers 0.4. -/
def envC : Env where
  refineResp := fun _ => .ok "Quantum entanglement"
  searchResp := fun _ _ => .ok ["Quantum entanglement"]
  contentResp := fun _ _ =>
    .ok [{ extract := "Quantum entanglement is a physical phenomenon.",
           categories := [] }]
  scoreResp := fun _ _ _ => .ok "0.4"

/-- Collaborators whose search endpoint finds nothing for any term. -/
def envB : Env where
  refineResp := fun _ => .ok "refined phrase"
  searchResp := fun _ _ => .ok []
  contentResp := fun _ _ => .badStatus
  scoreResp := fun _ _ _ => .err "unavailable"

/-- Collaborators whose content endpoint serves a disambiguation page
for every title. -/
def envD : Env where
  refineResp := fun _ => .ok "Gravity"
  searchResp := fun _ _ => .ok ["Gravity"]
  contentResp := fun _ _ => .ok [disambigPage]
  scoreResp := fun _ _ _ => .ok "0.9"

/-! ## The claims -/

/-- C1: whenever the scored candidate set of a run is non-empty, the
pipeline returns `Found` carrying a member of the candidate set of
maximal score — with no condition on the 0.7 threshold, so a top
candidate scoring below 0.7 is still returned as `Found` — and the
`NotFound` outcome "No relevant Wikipedia content found." occurs exactly
when the search stage produced titles but the candidate set ended up
empty. -/
theorem best_candidate_selection (env : Env) (query : String) :
    (candidatesOf env query ≠ [] →
      ∃ c, c ∈ candidatesOf env query ∧
        fetch_best_wikipedia_page env query = Result.found c.1 c.2.1 c.2.2 ∧
        ∀ d ∈ candidatesOf env query, d.2.2 ≤ c.2.2) ∧
    (fetch_best_wikipedia_page env query =
        Result.notFound "No relevant Wikipedia content found." ↔
      titlesOf env query ≠ [] ∧ candidatesOf env query = []) := by
  have htc : candidatesOf env query ≠ [] → titlesOf env query ≠ [] := by
    intro hc ht
    exact hc (by simp [candidatesOf, ht])
  constructor
  · intro hc
    have ht := htc hc
    have hs : sortedCandidatesOf env query ≠ [] := by
      rw [Ne, sortedCandidatesOf_nil_iff]
      exact hc
    obtain ⟨c, rest, hcr⟩ : ∃ c rest, sortedCandidatesOf env query = c :: rest := by
      cases hsc : sortedCandidatesOf env query with
      | nil => exact absurd hsc hs
      | cons a l => exact ⟨a, l, rfl⟩
    obtain ⟨hmem, hmax⟩ := sortedCandidatesOf_head_max env query c rest hcr
    exact ⟨c, hmem, fetch_eq_of_sorted_cons env query c rest ht hcr, hmax⟩
  · constructor
    · intro hres
      by_cases ht : titlesOf env query = []
      · rw [fetch_eq_of_titles_nil env query ht] at hres
        simp at hres
      · refine ⟨ht, ?_⟩
        by_contra hc
        have hs : sortedCandidatesOf env query ≠ [] := by
          rw [Ne, sortedCandidatesOf_nil_iff]
          exact hc
        obtain ⟨c, rest, hcr⟩ : ∃ c rest, sortedCandidatesOf env query = c :: rest := by
          cases hsc : sortedCandidatesOf env query with
          | nil => exact absurd hsc hs
          | cons a l => exact ⟨a, l, rfl⟩
        rw [fetch_eq_of_sorted_cons env query c rest ht hcr] at hres
        simp at hres
    · rintro ⟨ht, hc⟩
      exact fetch_eq_of_sorted_nil env query ht
        ((sortedCandidatesOf_nil_iff env query).mpr hc)

/-- Witness for C1: with healthy collaborators whose scorer answers 0.4
(below the 0.7 threshold), the pipeline still returns `Found` with the
highest-scoring candidate. -/
theorem best_candidate_selection_witness :
    ∃ c, c ∈ candidatesOf envC "What is quantum entanglement?" ∧
      fetch_best_wikipedia_page envC "What is quantum entanglement?" =
        Result.found c.1 c.2.1 c.2.2 ∧
      ∀ d ∈ candidatesOf envC "What is quantum entanglement?", d.2.2 ≤ c.2.2 :=
  (best_candidate_selection envC "What is quantum entanglement?").1 (by decide)

/-- C2: for every oracle behaviour — including out-of-range numbers,
non-numeric text, errors and exhaustion — and for every query, title,
body and retry cap, the relevance score returned by
`is_relevant_page_gemini` lies in [0, 1]; and the score is produced as
the claim says: a parseable answer is returned clamped into [0, 1],
while a parse failure whose error message lacks "429", a Fatal (non-429)
oracle error, and exhaustion of all retries on quota errors each yield
exactly 0.0. -/
theorem score_always_in_unit_interval (oracle o1 o2 o3 o4 : Nat → OracleResp)
    (query wiki_title wiki_summary t1 t2 msg3 : String) (v : Rat)
    (mr mr1 mr2 mr3 mr4 : Nat)
    (h1ok : o1 0 = .ok t1)
    (h1p : parseScore? (stripNonNumeric (strTrim t1)) = some v)
    (h2ok : o2 0 = .ok t2)
    (h2p : parseScore? (stripNonNumeric (strTrim t2)) = none)
    (h2no : strHasSubstr ("could not convert string to float: " ++
      stripNonNumeric (strTrim t2)) "429" = false)
    (h3err : o3 0 = .err msg3)
    (h3no : strHasSubstr msg3 "429" = false)
    (h4 : ∀ n, ∃ m, o4 n = .err m ∧ strHasSubstr m "429" = true) :
    (0 ≤ (is_relevant_page_gemini oracle query wiki_title wiki_summary mr).1 ∧
      (is_relevant_page_gemini oracle query wiki_title wiki_summary mr).1 ≤ 1) ∧
    is_relevant_page_gemini o1 query wiki_title wiki_summary mr1 =
      (max 0 (min v 1), 1) ∧
    is_relevant_page_gemini o2 query wiki_title wiki_summary mr2 = (0, 1) ∧
    is_relevant_page_gemini o3 query wiki_title wiki_summary mr3 = (0, 1) ∧
    is_relevant_page_gemini o4 query wiki_title wiki_summary mr4 = (0, mr4 + 1) := by
  refine ⟨scoreGo_bounds oracle (mr + 1) 0, ?_, ?_, ?_, ?_⟩
  · simp [is_relevant_page_gemini, scoreGo, h1ok, h1p]
  · simp [is_relevant_page_gemini, scoreGo, h2ok, h2p, h2no]
  · simp [is_relevant_page_gemini, scoreGo, h3err, h3no]
  · simpa [is_relevant_page_gemini] using scoreGo_all429 o4 h4 (mr4 + 1) 0

/-- Witness for C2: the out-of-range answer 1.7 is clamped to 1; the
unparseable answer gives 0.0 after one call; the fatal oracle gives 0.0
after one call; an always-429 oracle gives 0.0 after the full 4 calls;
and that last score still lies in [0, 1]. -/
theorem score_always_in_unit_interval_witness :
    (0 ≤ (is_relevant_page_gemini always429Oracle "q" "t" "s" 3).1 ∧
      (is_relevant_page_gemini always429Oracle "q" "t" "s" 3).1 ≤ 1) ∧
    is_relevant_page_gemini outOfRangeOracle "q" "t" "s" 3 =
      (max 0 (min ((1 : Rat) + (7 : Rat) / (10 : Rat) ^ (1 : Nat)) 1), 1) ∧
    is_relevant_page_gemini unparseableOracle "q" "t" "s" 3 = (0, 1) ∧
    is_relevant_page_gemini fatalOracle "q" "t" "s" 3 = (0, 1) ∧
    is_relevant_page_gemini always429Oracle "q" "t" "s" 3 = (0, 4) :=
  score_always_in_unit_interval always429Oracle outOfRangeOracle
    unparseableOracle fatalOracle always429Oracle "q" "t" "s"
    "1.7" "unknown" "500 internal error"
    ((1 : Rat) + (7 : Rat) / (10 : Rat) ^ (1 : Nat)) 3 3 3 3 3
    rfl rfl rfl (by decide) (by decide) rfl (by decide)
    (fun _ => ⟨"429 Resource has been exhausted", rfl, by decide⟩)

/-- C3: when search on the refined term comes back empty the title list
of the run is exactly the result of searching the original query, and
the "no pages found" outcome is returned if and only if that second
search is also empty. -/
theorem fallback_search_on_empty (env : Env) (query : String)
    (h : (search_wikipedia (env.searchResp (refinedOf env query))).1 = []) :
    titlesOf env query = (search_wikipedia (env.searchResp query)).1 ∧
    (fetch_best_wikipedia_page env query =
        Result.notFound "No Wikipedia pages found for this query." ↔
      (search_wikipedia (env.searchResp query)).1 = []) := by
  have htit : titlesOf env query = (search_wikipedia (env.searchResp query)).1 := by
    simp [titlesOf, h]
  refine ⟨htit, ?_, ?_⟩
  · intro hres
    by_contra hne
    have ht : titlesOf env query ≠ [] := by rw [htit]; exact hne
    cases hsc : sortedCandidatesOf env query with
    | nil => rw [fetch_eq_of_sorted_nil env query ht hsc] at hres; simp at hres
    | cons c rest =>
      rw [fetch_eq_of_sorted_cons env query c rest ht hsc] at hres
      simp at hres
  · intro hempty
    exact fetch_eq_of_titles_nil env query (htit.trans hempty)

/-- Witness for C3: collaborators whose search endpoint is empty for
every term make the pipeline search the original query and report the
"no pages found" outcome. -/
theorem fallback_search_on_empty_witness :
    titlesOf envB "original question" =
      (search_wikipedia (envB.searchResp "original question")).1 ∧
    (fetch_best_wikipedia_page envB "original question" =
        Result.notFound "No Wikipedia pages found for this query." ↔
      (search_wikipedia (envB.searchResp "original question")).1 = []) :=
  fallback_search_on_empty envB "original question" (by decide)

/-- C4: when every successful content response for a title serves first
a page with some category containing "disambiguation" (after the
lowercasing the source applies), the fetch returns the `(None, None)`
outcome regardless of the extract, and no candidate bearing that title
ever enters the candidate set of the pipeline. -/
theorem disambiguation_never_candidate (env : Env) (q title : String) (mr : Nat)
    (h : ∀ n ps, env.contentResp title n = .ok ps → ∃ p rest, ps = p :: rest ∧
      (p.categories.map strToLower).any
        (fun cat => strHasSubstr cat "disambiguation") = true) :
    (get_wikipedia_content (env.contentResp title) title mr).1 = none ∧
    ∀ body score, (title, body, score) ∉ candidatesOf env q := by
  constructor
  · exact contentGo_disambig (env.contentResp title) title mr h (mr + 1) 0
  · intro body score hmem
    obtain ⟨t, _, hsome⟩ := mem_candidatesOf env q (title, body, score) hmem
    have ht : t = title := ((candOf_some env q t _ hsome).1).symm
    subst ht
    have hnone : (get_wikipedia_content (env.contentResp t) t).1 = none :=
      contentGo_disambig (env.contentResp t) t 2 h 3 0
    unfold candOf at hsome
    rw [hnone] at hsome
    simp at hsome

/-- Witness for C4: a content endpoint that always serves a
disambiguation page yields the `(None, None)` outcome and an empty
contribution to the candidate set. -/
theorem disambiguation_never_candidate_witness :
    (get_wikipedia_content (envD.contentResp "Gravity") "Gravity" 2).1 = none ∧
    ∀ body score, ("Gravity", body, score) ∉ candidatesOf envD "q" :=
  disambiguation_never_candidate envD "q" "Gravity" 2
    (fun n ps hps => by
      have hps' : HttpResp.ok (α := List Page) [disambigPage] = HttpResp.ok ps := hps
      injection hps' with henc
      exact ⟨disambigPage, [], henc.symm, by decide⟩)

/-- C5: an operation that fails with a rate-limit signal on every
attempt is attempted exactly `max_retries + 1` times — the first try
plus `max_retries` more — after which the fallback value (the original
query, the empty title list, the `(None, None)` pair) is returned
rather than an exception raised. -/
theorem retry_cap_exact (oracle : Nat → OracleResp)
    (sresp : Nat → HttpResp (List String)) (cresp : Nat → HttpResp (List Page))
    (q title : String) (mro mrs mrc : Nat)
    (ho : ∀ n, ∃ msg, oracle n = .err msg ∧ strHasSubstr msg "429" = true)
    (hs : ∀ n, sresp n = .status429)
    (hc : ∀ n, cresp n = .status429) :
    refine_query_with_gemini oracle q mro = (q, mro + 1) ∧
    search_wikipedia sresp mrs = ([], mrs + 1) ∧
    get_wikipedia_content cresp title mrc = (none, mrc + 1) := by
  refine ⟨?_, ?_, ?_⟩
  · simpa [refine_query_with_gemini] using refineGo_all429 oracle q ho (mro + 1) 0
  · simpa [search_wikipedia] using searchGo_all429 sresp mrs hs (mrs + 1) 0
  · simpa [get_wikipedia_content] using contentGo_all429 cresp title mrc hc (mrc + 1) 0

/-- Witness for C5 at the default caps of the source: the oracle call is
attempted 4 times (`max_retries = 3`), the encyclopedia calls 3 times
(`max_retries = 2`), and each returns its fallback. -/
theorem retry_cap_exact_witness :
    refine_query_with_gemini always429Oracle "query" 3 = ("query", 4) ∧
    search_wikipedia always429Search 2 = ([], 3) ∧
    get_wikipedia_content always429Content "Gravity" 2 = (none, 3) :=
  retry_cap_exact always429Oracle always429Search always429Content "query" "Gravity"
    3 2 2
    (fun _ => ⟨"429 Resource has been exhausted", rfl, by decide⟩)
    (fun _ => rfl) (fun _ => rfl)

/-- C6 counterexample: the first search attempt fails with a network
request exception — not a 429 — yet the call is not aborted: a second
attempt is made and its result returned, so a non-429 failure does
consume further attempts. -/
theorem non429_single_attempt_counterexample :
    netErrThenOkSearch 0 = HttpResp.netErr ∧
    search_wikipedia netErrThenOkSearch 2 = (["Gravity"], 2) ∧
    search_wikipedia netErrThenOkSearch 2 ≠ ([], 1) := by
  refine ⟨rfl, by decide, by decide⟩

/-- C6 amended: a non-quota oracle error and a non-200/non-429 HTTP
status abort after the single attempt with the fallback value, but an
encyclopedia request exception is retried — immediately, without
backoff — until the attempt cap, after which the fallback is
returned. -/
theorem fatal_abort_policy (oracle : Nat → OracleResp)
    (sresp nresp : Nat → HttpResp (List String)) (cresp : Nat → HttpResp (List Page))
    (q title msg : String) (mro mrs mrc mrn : Nat)
    (ho : oracle 0 = .err msg) (hmsg : strHasSubstr msg "429" = false)
    (hs : sresp 0 = .badStatus) (hc : cresp 0 = .badStatus)
    (hn : ∀ n, nresp n = .netErr) :
    refine_query_with_gemini oracle q mro = (q, 1) ∧
    search_wikipedia sresp mrs = ([], 1) ∧
    get_wikipedia_content cresp title mrc = (none, 1) ∧
    search_wikipedia nresp mrn = ([], mrn + 1) := by
  refine ⟨?_, ?_, ?_, ?_⟩
  · simp [refine_query_with_gemini, refineGo, ho, hmsg]
  · simp [search_wikipedia, searchGo, hs]
  · simp [get_wikipedia_content, contentGo, hc]
  · exact searchGo_allNetErr nresp mrn hn (mrn + 1) 0 (by omega)

/-- Witness for the amended C6: a fatal oracle error and a 500-class
search status each stop after one call; a search endpoint that always
raises request exceptions is called 3 times under the default cap. -/
theorem fatal_abort_policy_witness :
    refine_query_with_gemini fatalOracle "query" 3 = ("query", 1) ∧
    search_wikipedia (fun _ => HttpResp.badStatus) 2 = ([], 1) ∧
    get_wikipedia_content (fun _ => HttpResp.badStatus) "Gravity" 2 = (none, 1) ∧
    search_wikipedia (fun _ => HttpResp.netErr) 2 = ([], 3) :=
  fatal_abort_policy fatalOracle (fun _ => HttpResp.badStatus)
    (fun _ => HttpResp.netErr) (fun _ => HttpResp.badStatus)
    "query" "Gravity" "500 internal error" 3 2 2 2
    rfl (by decide) rfl rfl (fun _ => rfl)

/-- C7 counterexample: a 200 content response whose only page has an
empty extract (and no disambiguation category) makes
`get_wikipedia_content` return `(title, "")`, not the `(None, None)`
outcome the claim asserts. -/
theorem empty_extract_counterexample :
    emptyExtractContent 0 = HttpResp.ok [{ extract := "", categories := [] }] ∧
    (get_wikipedia_content emptyExtractContent "Gravity" 2).1 = some ("Gravity", "") ∧
    (get_wikipedia_content emptyExtractContent "Gravity" 2).1 ≠ none := by
  refine ⟨rfl, by decide, by decide⟩

/-- C7 amended: `(None, None)` is returned when the pages collection of
a 200 response is empty; a present page with an empty extract yields
`(title, "")` instead, and the truthiness check of the pipeline then
skips it, so no candidate with an empty title or body is ever
created. -/
theorem absent_and_empty_extract_handling (r1 r2 : Nat → HttpResp (List Page))
    (title : String) (cats : List String) (rest : List Page) (env : Env)
    (q : String) (mr1 mr2 : Nat)
    (h1 : r1 0 = .ok [])
    (h2 : r2 0 = .ok ({ extract := "", categories := cats } :: rest))
    (h3 : (cats.map strToLower).any
      (fun cat => strHasSubstr cat "disambiguation") = false) :
    (get_wikipedia_content r1 title mr1).1 = none ∧
    (get_wikipedia_content r2 title mr2).1 = some (title, "") ∧
    ∀ c ∈ candidatesOf env q, c.1 ≠ "" ∧ c.2.1 ≠ "" := by
  refine ⟨?_, ?_, ?_⟩
  · simp [get_wikipedia_content, contentGo, h1, processPages]
  · simp [get_wikipedia_content, contentGo, h2, processPages, h3]
  · intro c hc
    obtain ⟨t, _, hsome⟩ := mem_candidatesOf env q c hc
    exact (candOf_some env q t c hsome).2

/-- Witness for the amended C7: an empty page collection gives
`(None, None)`, an empty-extract page gives `(title, "")`, and the
healthy run of `envC` has only candidates with non-empty titles and
bodies. -/
theorem absent_and_empty_extract_handling_witness :
    (get_wikipedia_content emptyPagesContent "Gravity" 2).1 = none ∧
    (get_wikipedia_content emptyExtractContent "Gravity" 2).1 = some ("Gravity", "") ∧
    ∀ c ∈ candidatesOf envC "What is quantum entanglement?",
      c.1 ≠ "" ∧ c.2.1 ≠ "" :=
  absent_and_empty_extract_handling emptyPagesContent emptyExtractContent
    "Gravity" [] [] envC "What is quantum entanglement?" 2 2 rfl rfl (by decide)

/-- C8: the refinement result is either some successful oracle answer
with only surrounding whitespace trimmed, or the original query string
itself; and when no oracle attempt succeeds (fatal error or retry
exhaustion) it is exactly the original query.  The function is total,
so nothing ever escapes to the caller. -/
theorem refine_trim_or_original (oracle : Nat → OracleResp) (q : String)
    (mr : Nat) :
    ((refine_query_with_gemini oracle q mr).1 = q ∨
      ∃ n text, n ≤ mr ∧ oracle n = .ok text ∧
        (refine_query_with_gemini oracle q mr).1 = strTrim text) ∧
    ((∀ n text, oracle n ≠ .ok text) →
      (refine_query_with_gemini oracle q mr).1 = q) := by
  constructor
  · rcases refineGo_shape oracle q (mr + 1) 0 with hq | ⟨n, text, _, hlt, hok, hres⟩
    · exact Or.inl hq
    · exact Or.inr ⟨n, text, by omega, hok, hres⟩
  · intro h
    exact refineGo_noSuccess oracle q h (mr + 1) 0

/-- Witness for C8: an oracle that always fails fatally leaves the
query unchanged. -/
theorem refine_trim_or_original_witness :
    (refine_query_with_gemini fatalOracle "What is gravity?" 3).1 =
      "What is gravity?" :=
  (refine_trim_or_original fatalOracle "What is gravity?" 3).2
    (fun n text h => by simp [fatalOracle] at h)

/-- C9: two pipeline runs whose collaborators answer identically at
every call site and attempt produce identical results — the pipeline
introduces no nondeterminism of its own. -/
theorem pipeline_deterministic (e1 e2 : Env) (q : String)
    (h1 : ∀ n, e1.refineResp n = e2.refineResp n)
    (h2 : ∀ t n, e1.searchResp t n = e2.searchResp t n)
    (h3 : ∀ t n, e1.contentResp t n = e2.contentResp t n)
    (h4 : ∀ t s n, e1.scoreResp t s n = e2.scoreResp t s n) :
    fetch_best_wikipedia_page e1 q = fetch_best_wikipedia_page e2 q := by
  have he : e1 = e2 := by
    cases e1
    cases e2
    simp only [Env.mk.injEq]
    exact ⟨funext h1, funext fun t => funext (h2 t),
      funext fun t => funext (h3 t),
      funext fun t => funext fun s => funext (h4 t s)⟩
  rw [he]

/-- Witness for C9: the healthy collaborator set compared with
itself. -/
theorem pipeline_deterministic_witness :
    fetch_best_wikipedia_page envC "What is quantum entanglement?" =
      fetch_best_wikipedia_page envC "What is quantum entanglement?" :=
  pipeline_deterministic envC envC "What is quantum entanglement?"
    (fun _ => rfl) (fun _ _ => rfl) (fun _ _ => rfl) (fun _ _ _ => rfl)

/-- C10: the scorer discriminates failures purely on the substring
"429" of the exception message.  The oracle answer ".429." strips to an
unparseable numeral whose parse-error message contains "429", so the
scorer retries through the full attempt cap (4 calls at the default)
before returning 0.0; an unparseable answer with no "429" aborts after
the single call with 0.0. -/
theorem parse_error_with_429_retried :
    stripNonNumeric (strTrim ".429.") = ".429." ∧
    parseScore? ".429." = none ∧
    strHasSubstr ("could not convert string to float: " ++ ".429.") "429" = true ∧
    is_relevant_page_gemini dot429Oracle "q" "t" "s" 3 = (0, 4) ∧
    is_relevant_page_gemini unparseableOracle "q" "t" "s" 3 = (0, 1) := by
  refine ⟨by decide, by decide, by decide, by decide, by decide⟩
